import Mathlib

/-! Formal model (shallow embedding) of the layer module of the DXF CAD
library: `src/src/ezdxf/entities/layer.py`. Python integers are modelled as
`Int` (or `Nat` for unsigned 32-bit stored values), floats as `ℚ`,
dictionaries as association lists, and raised exceptions as `Option String`
error results paired with the post-call state. Python exceptions do not roll
back earlier mutations, so the state component of a failing call reflects
everything that was mutated before the raise. Collaborator code that is not
under `src/` (the validator library, the colors module, the layer table, the
generic attribute export) is modelled from the spec and marked as such. -/

namespace EzdxfLayer

/-- Source `is_valid_layer_color_index`: `(-256 < aci < 256) and aci != 0`;
BYBLOCK (0) and BYLAYER (256) are not valid layer colors. -/
def is_valid_layer_color_index (aci : Int) : Bool :=
  decide ((-256 < aci ∧ aci < 256) ∧ aci ≠ 0)

/-- Source `fix_layer_color`: returns `aci` if it is a valid layer color
index, else the repair value `7`. -/
def fix_layer_color (aci : Int) : Int :=
  if is_valid_layer_color_index aci then aci else 7

/-- The DXF attribute namespace of a LAYER entity, with the fields of
`acdb_layer_table_record` from the source; the optional attributes
(`true_color`, `plot`, `unknown1`) are `none` when never set; the layer's
transparency xdata payload (application id `AcCmTransparency`) is carried as
`xdata_transparency`, `none` when the payload is absent. -/
structure Layer where
  name : String
  flags : Int
  color : Int
  true_color : Option Nat
  linetype : String
  plot : Option Int
  lineweight : Int
  plotstyle_handle : String
  material_handle : String
  unknown1 : Option String
  xdata_transparency : Option Nat
deriving DecidableEq

/-- Source `Layer.is_off`: `self.dxf.color < 0`. -/
def is_off (L : Layer) : Bool := decide (L.color < 0)

/-- Source `Layer.is_on`: `not self.is_off()`. -/
def is_on (L : Layer) : Bool := !is_off L

/-- Source `Layer.on`: `self.dxf.color = abs(self.dxf.color)`. -/
def layer_on (L : Layer) : Layer := { L with color := |L.color| }

/-- Source `Layer.off`: `self.dxf.color = -abs(self.dxf.color)`. -/
def layer_off (L : Layer) : Layer := { L with color := -|L.color| }

/-- Source `Layer.get_color`: `abs(self.dxf.color)`. -/
def get_color (L : Layer) : Int := |L.color|

/-- Source `Layer.set_color`: `color = abs(color) if self.is_on() else
-abs(color); self.dxf.color = color`. -/
def set_color (c : Int) (L : Layer) : Layer :=
  { L with color := if is_on L then |c| else -|c| }

/-- Reserved application id for transparency payloads. -/
def AcCmTransparency : String := "AcCmTransparency"

/-- Modelled from the spec: `ezdxf.colors.transparency2float` is not under
`src/`; per the spec (§4.4) the stored entry is a flagged 32-bit value whose
low byte encodes the opacity, read here as `1 - (t &&& 0xFF) / 255`. -/
def transparency2float (t : Nat) : ℚ := 1 - ((t &&& 0xFF : Nat) : ℚ) / 255

/-- Modelled from the spec: `ezdxf.colors.float2transparency` is not under
`src/`; produces a stored 32-bit value carrying the "real transparency
present" flag bit `0x2000000`. -/
def float2transparency (value : ℚ) : Nat :=
  (Int.toNat (Rat.floor ((1 - value) * 255 + 1 / 2))) ||| 0x2000000

/-- Source `Layer.transparency` getter: absent payload reads as `0.0`; a
stored value is interpreted only when it carries the flag bit `0x2000000`
(`if t & 0x2000000: return clr.transparency2float(t)`), else `0.0`. -/
def transparency_get (xdata : Option Nat) : ℚ :=
  match xdata with
  | none => 0
  | some t => if t &&& 0x2000000 ≠ 0 then transparency2float t else 0

/-- A document slice for the transparency setter: the application-id table
and the layer. -/
structure LayerDoc where
  appids : List String
  layer : Layer
deriving DecidableEq

/-- Source `Layer.transparency` setter: first registers `AcCmTransparency` in
the app-id table if absent, then range-checks the value; in range, the whole
payload is replaced (`discard_xdata` then `set_xdata`); out of range, raises
`ValueError` — the app-id registration is not rolled back. -/
def transparency_set (doc : LayerDoc) (value : ℚ) : Option String × LayerDoc :=
  let doc1 := if AcCmTransparency ∈ doc.appids then doc
    else { doc with appids := doc.appids ++ [AcCmTransparency] }
  if 0 ≤ value ∧ value ≤ 1 then
    (none, { doc1 with
      layer := { doc1.layer with xdata_transparency := some (float2transparency value) } })
  else
    (some ("Value out of range (0 .. 1)."), doc1)

/-- Modelled from the spec: the layer table key function is case-insensitive
name lookup, i.e. lower-casing. -/
def lkey (s : String) : String := ⟨s.data.map Char.toLower⟩

/-- The reserved illegal characters of `ezdxf.lldxf.const`. -/
def INVALID_NAME_CHARACTERS : String := "<>/\\\":;?*|=`"

/-- Modelled from the spec: `ezdxf.lldxf.validator.is_valid_layer_name` is
not under `src/`; per the spec (§4.5 step 1) a name is valid iff it contains
none of the reserved illegal characters. -/
def is_valid_layer_name (name : String) : Bool :=
  !(name.data.any (fun c => INVALID_NAME_CHARACTERS.data.contains c))

/-- An entity of the document's entity database, as seen by the rename scan
and the override store: its handle, its DXF type string, its `layer`
attribute (`none` when `hasattr` is false) and, for VIEWPORT entities, the
frozen-layers member list. -/
structure DbEntity where
  handle : String
  dxftype : String
  layer : Option String
  frozen_layers : List String
deriving DecidableEq

/-- Modelled from the spec: `Viewport.rename_frozen_layer` is not under
`src/`; per the spec (§4.5 step 6) the viewport rename hook rewrites stored
frozen member-names matching the old name case-insensitively to the new
name. -/
def rename_frozen_layer (old new : String) (ls : List String) : List String :=
  ls.map (fun n => if lkey n = lkey old then new else n)

/-- The rename scan's per-entity test: `e.dxf.hasattr("layer") and
key(e.dxf.layer) == old_key`. -/
def referencesLayer (old : String) (e : DbEntity) : Bool :=
  match e.layer with
  | some l => decide (lkey l = lkey old)
  | none => false

/-- One step of `Layer._rename_layer_references`: rewrite the `layer`
attribute when it matches the old key, then apply the VIEWPORT hook. -/
def renameEntityRef (old new : String) (e : DbEntity) : DbEntity :=
  let e1 := if referencesLayer old e then { e with layer := some new } else e
  if e1.dxftype = "VIEWPORT" then
    { e1 with frozen_layers := rename_frozen_layer old new e1.frozen_layers }
  else e1

/-- The diagnostic log messages of `Layer._rename_layer_references`:
LAYER_FILTER and LAYER_INDEX entities are reported via `logger.debug` only. -/
def renameLogMsg (e : DbEntity) : List String :=
  if e.dxftype = "LAYER_FILTER" then
    [("renaming layer - document contains LAYER_FILTER")]
  else if e.dxftype = "LAYER_INDEX" then
    [("renaming layer - document contains LAYER_INDEX")]
  else []

/-- Source `Layer._rename_layer_references`: one pass over the entity
database rewriting layer references, collecting diagnostic log messages;
never raises. -/
def rename_layer_references (old new : String) (db : List DbEntity) :
    List DbEntity × List String :=
  (db.map (renameEntityRef old new), (db.map renameLogMsg).flatten)

/-- A document slice for `rename`: the renamed layer's current name, the
layer table (list of entry names), the entity database and the diagnostic
log. -/
structure RenameDoc where
  layerName : String
  table : List String
  entitydb : List DbEntity
  log : List String
deriving DecidableEq

/-- Modelled from the spec: the layer table (`doc.layers`) is not under
`src/`; per the spec it supports case-insensitive existence checks. -/
def has_entry (table : List String) (name : String) : Bool :=
  table.any (fun t => decide (lkey t = lkey name))

/-- Modelled from the spec: the layer table's key replacement (`replace`)
used by `rename`, rewriting the entry stored under the old key. -/
def table_replace (table : List String) (old new : String) : List String :=
  table.map (fun t => if lkey t = lkey old then new else t)

/-- Source `Layer.rename`: validates the new name's characters, rejects
renaming layers "0" and "DEFPOINTS" (case-insensitively on the current
name), rejects a name already present in the table; only then updates the
layer name, the table key and every layer reference in the entity
database. -/
def layer_rename (doc : RenameDoc) (name : String) : Option String × RenameDoc :=
  if !is_valid_layer_name name then
    (some ("Name contains invalid characters."), doc)
  else if lkey doc.layerName = ("0") ∨ lkey doc.layerName = ("defpoints") then
    (some ("Can not rename layer."), doc)
  else if has_entry doc.table name then
    (some ("Layer already exist."), doc)
  else
    let old := doc.layerName
    let refs := rename_layer_references old name doc.entitydb
    (none, { layerName := name, table := table_replace doc.table old name,
             entitydb := refs.1, log := doc.log ++ refs.2 })

/-- The DXF versions relevant to the source, ordered as their version
strings ("AC1009" < "AC1015" < ...) compare in Python. -/
inductive DXFVersion
  | DXF12
  | DXF2000
  | DXF2004
  | DXF2007
  | DXF2010
  | DXF2013
  | DXF2018
deriving DecidableEq

/-- Rank of a DXF version, consistent with the version-string order. -/
def DXFVersion.rank : DXFVersion → Nat
  | .DXF12 => 0
  | .DXF2000 => 1
  | .DXF2004 => 2
  | .DXF2007 => 3
  | .DXF2010 => 4
  | .DXF2013 => 5
  | .DXF2018 => 6

instance : LT DXFVersion := ⟨fun a b => a.rank < b.rank⟩

instance : LE DXFVersion := ⟨fun a b => a.rank ≤ b.rank⟩

instance (a b : DXFVersion) : Decidable (a < b) :=
  inferInstanceAs (Decidable (a.rank < b.rank))

instance (a b : DXFVersion) : Decidable (a ≤ b) :=
  inferInstanceAs (Decidable (a.rank ≤ b.rank))

/-- A tag value: string or integer. -/
inductive TagValue
  | str (s : String)
  | int (i : Int)
deriving DecidableEq

/-- A DXF tag: (group code, value). -/
structure Tag where
  code : Nat
  value : TagValue
deriving DecidableEq

/-- The two subclass-marker framing tags written by `Layer.export_entity`
(group code 100 = SUBCLASS_MARKER). -/
def subclass_markers : List Tag :=
  [⟨100, TagValue.str ("AcDbSymbolTableRecord")⟩,
   ⟨100, TagValue.str ("AcDbLayerTableRecord")⟩]

/-- Modelled from the spec: `DXFNamespace.export_dxf_attribs` is not under
`src/`; per the spec (§4.2) each requested attribute is skipped when its
minimum version exceeds the target version, skipped when it is optional and
was never explicitly set, and otherwise emitted as one tag with its schema
group code; instantiated here at the attribute list and the schema
(`acdb_layer_table_record`) of `Layer.export_entity` in the source. -/
def attrib_tags (v : DXFVersion) (L : Layer) : List Tag :=
  [⟨2, TagValue.str L.name⟩, ⟨70, TagValue.int L.flags⟩, ⟨62, TagValue.int L.color⟩]
    ++ (if DXFVersion.DXF2004 ≤ v then
          (match L.true_color with
           | some tc => [⟨420, TagValue.int (Int.ofNat tc)⟩]
           | none => [])
        else [])
    ++ [⟨6, TagValue.str L.linetype⟩]
    ++ (if DXFVersion.DXF2000 ≤ v then
          (match L.plot with
           | some p => [⟨290, TagValue.int p⟩]
           | none => [])
        else [])
    ++ (if DXFVersion.DXF2000 ≤ v then [⟨370, TagValue.int L.lineweight⟩] else [])
    ++ (if DXFVersion.DXF2000 ≤ v then [⟨390, TagValue.str L.plotstyle_handle⟩] else [])
    ++ (if DXFVersion.DXF2007 ≤ v then [⟨347, TagValue.str L.material_handle⟩] else [])
    ++ (if DXFVersion.DXF2007 ≤ v then
          (match L.unknown1 with
           | some u => [⟨348, TagValue.str u⟩]
           | none => [])
        else [])

/-- Source `Layer.export_entity`: writes the two subclass markers when
`tagwriter.dxfversion > DXF12`, then requests the attribute tags in the
fixed declared order. -/
def export_entity (v : DXFVersion) (L : Layer) : List Tag :=
  (if DXFVersion.DXF12 < v then subclass_markers else []) ++ attrib_tags v L

/-- The declared export order of the layer attribute group codes. -/
def declared_codes : List Nat := [2, 70, 62, 420, 6, 290, 370, 390, 347, 348]

/-- The entity database's `get`: handle-based lookup returning `None` when
the handle does not resolve. -/
def entitydb_get (db : List DbEntity) (h : String) : Option DbEntity :=
  db.find? (fun e => e.handle == h)

/-- A document slice for the override store: the base layer and the entity
database holding the viewports. -/
structure VPDoc where
  layer : Layer
  entitydb : List DbEntity
deriving DecidableEq

/-- Source `is_layer_frozen_in_vp`: resolves the handle through the entity
database; when it resolves, tests live membership of the layer's name in the
viewport's `frozen_layers`; otherwise returns `False`. -/
def is_layer_frozen_in_vp (doc : VPDoc) (vp_handle : String) : Bool :=
  match entitydb_get doc.entitydb vp_handle with
  | some vp => decide (doc.layer.name ∈ vp.frozen_layers)
  | none => false

/-- Modelled from the spec: `ezdxf.colors.int2rgb` is not under `src/`;
unpacks a 24-bit `0x00RRGGBB` integer. -/
def int2rgb (v : Nat) : Nat × Nat × Nat :=
  ((v >>> 16) &&& 0xFF, (v >>> 8) &&& 0xFF, v &&& 0xFF)

/-- Source `Layer.rgb` property: `int2rgb` of `true_color` when set, else
`None`. -/
def layer_rgb (L : Layer) : Option (Nat × Nat × Nat) := L.true_color.map int2rgb

/-- Source dataclass `OverrideAttributes`. -/
structure OverrideAttributes where
  aci : Int
  rgb : Option (Nat × Nat × Nat)
  transparency : ℚ
  linetype : String
  lineweight : Int
  frozen : Bool
deriving DecidableEq

/-- Source `ViewportOverrides.default_settings`: the base layer's current
settings plus the given frozen flag; `aci` is the layer's `color` property,
i.e. the visibility-independent magnitude. -/
def default_settings (doc : VPDoc) (frozen : Bool) : OverrideAttributes :=
  { aci := get_color doc.layer,
    rgb := layer_rgb doc.layer,
    transparency := transparency_get doc.layer.xdata_transparency,
    linetype := doc.layer.linetype,
    lineweight := doc.layer.lineweight,
    frozen := frozen }

/-- The override map `self._overrides`, an insertion-ordered dictionary from
viewport handle to override attributes. -/
abbrev OverrideStore := List (String × OverrideAttributes)

/-- Dictionary lookup in the override map. -/
def store_find (s : OverrideStore) (h : String) : Option OverrideAttributes :=
  (s.find? (fun p => p.1 == h)).map (fun p => p.2)

/-- Source `ViewportOverrides.has_overrides` for a given handle:
`vp_handle in self._overrides`. -/
def has_overrides (s : OverrideStore) (h : String) : Bool := (store_find s h).isSome

/-- Source `ViewportOverrides._get_overrides`: the stored entry when present,
else the default settings seeded with the live frozen flag; performs no
insertion. -/
def get_overrides (doc : VPDoc) (s : OverrideStore) (h : String) : OverrideAttributes :=
  match store_find s h with
  | some o => o
  | none => default_settings doc (is_layer_frozen_in_vp doc h)

/-- Source `ViewportOverrides._acquire_overrides`:
`self._overrides.setdefault(vp_handle, self.default_settings(...))` — returns
the stored entry when present, else inserts and returns the seeded default. -/
def acquire_overrides (doc : VPDoc) (s : OverrideStore) (h : String) :
    OverrideAttributes × OverrideStore :=
  match store_find s h with
  | some o => (o, s)
  | none =>
    (default_settings doc (is_layer_frozen_in_vp doc h),
     s ++ [(h, default_settings doc (is_layer_frozen_in_vp doc h))])

/-- In-place field mutation of the entry stored under handle `h`. -/
def store_update (s : OverrideStore) (h : String)
    (f : OverrideAttributes → OverrideAttributes) : OverrideStore :=
  s.map (fun p => if p.1 == h then (p.1, f p.2) else p)

/-- Source `ViewportOverrides.get_color` as a state-passing read: the value
paired with the override map, which `_get_overrides` leaves unchanged. -/
def vo_get_color (doc : VPDoc) (s : OverrideStore) (h : String) :
    Int × OverrideStore :=
  ((get_overrides doc s h).aci, s)

/-- Source `ViewportOverrides.is_frozen` as a state-passing read. -/
def vo_is_frozen (doc : VPDoc) (s : OverrideStore) (h : String) :
    Bool × OverrideStore :=
  ((get_overrides doc s h).frozen, s)

/-- Source `ViewportOverrides.freeze`: acquire (materializing a default entry
if needed), then set the `frozen` field. -/
def vo_freeze (doc : VPDoc) (s : OverrideStore) (h : String) : OverrideStore :=
  store_update (acquire_overrides doc s h).2 h (fun o => { o with frozen := true })

/-- Source `ViewportOverrides.set_color`: validates the ACI first (raising
without mutation on failure), then acquires and mutates the entry. -/
def vo_set_color (doc : VPDoc) (s : OverrideStore) (h : String) (v : Int) :
    Option String × OverrideStore :=
  if !is_valid_layer_color_index v then (some ("invalid ACI value"), s)
  else
    (none, store_update (acquire_overrides doc s h).2 h (fun o => { o with aci := v }))

/-- A concrete sample layer used by witnesses. -/
def sampleLayer : Layer :=
  { name := "WALLS", flags := 0, color := 7, true_color := none,
    linetype := "Continuous", plot := none, lineweight := 25,
    plotstyle_handle := "F", material_handle := "46", unknown1 := none,
    xdata_transparency := none }

/-- A concrete sample viewport entity whose frozen list contains "WALLS". -/
def sampleVP : DbEntity :=
  { handle := "B8", dxftype := "VIEWPORT", layer := some ("0"),
    frozen_layers := ["WALLS"] }

/-- A concrete sample document for the override-store witnesses. -/
def sampleVPDoc : VPDoc := { layer := sampleLayer, entitydb := [sampleVP] }

/-- A concrete sample document whose layer is a protected name. -/
def sampleProtectedDoc : RenameDoc :=
  { layerName := "0", table := ["0"], entitydb := [], log := [] }

/-- A concrete sample document slice for the transparency witnesses. -/
def sampleLayerDoc : LayerDoc := { appids := [], layer := sampleLayer }

/-- A concrete sample document for the rename witnesses: layer "WALLS"
referenced case-insensitively by one entity, plus a LAYER_FILTER entity. -/
def sampleRenameDoc : RenameDoc :=
  { layerName := "WALLS",
    table := ["0", "WALLS"],
    entitydb :=
      [{ handle := "A1", dxftype := "LINE", layer := some ("walls"),
         frozen_layers := [] },
       { handle := "A2", dxftype := "LAYER_FILTER", layer := none,
         frozen_layers := [] }],
    log := [] }

/-- C6: layer color validation and repair: `is_valid_layer_color_index aci`
holds exactly when `1 ≤ |aci| ≤ 255`; `fix_layer_color` returns `aci`
unchanged when valid and `7` otherwise; and the fixer's output always
satisfies the validator. -/
theorem spec_C6_layer_color_validation (aci : Int) :
    (is_valid_layer_color_index aci = true ↔ (1 ≤ |aci| ∧ |aci| ≤ 255))
    ∧ (is_valid_layer_color_index aci = true → fix_layer_color aci = aci)
    ∧ (is_valid_layer_color_index aci = false → fix_layer_color aci = 7)
    ∧ is_valid_layer_color_index (fix_layer_color aci) = true := by
  refine ⟨?_, ?_, ?_, ?_⟩
  · simp only [is_valid_layer_color_index, decide_eq_true_eq, Int.abs_eq_natAbs]
    omega
  · intro h; simp [fix_layer_color, h]
  · intro h; simp [fix_layer_color, h]
  · by_cases h : is_valid_layer_color_index aci
    · simp [fix_layer_color, h]
    · simp only [Bool.not_eq_true] at h
      simp [fix_layer_color, h]
      decide

/-- Closed witness for C6 at the invalid input `-300`. -/
theorem spec_C6_witness :
    fix_layer_color (-300) = 7
    ∧ is_valid_layer_color_index (fix_layer_color (-300)) = true :=
  ⟨(spec_C6_layer_color_validation (-300)).2.2.1 (by decide),
   (spec_C6_layer_color_validation (-300)).2.2.2⟩

/-- C1: color sign/magnitude independence: after `set_color m` with
`1 ≤ m ≤ 255`, toggling visibility with `on`/`off` leaves `get_color` equal
to `m`; toggling visibility never changes the stored magnitude `|color|`;
and `set_color` never changes the visibility state. -/
theorem spec_C1_color_sign_magnitude (L : Layer) (m : Int)
    (h1 : 1 ≤ m) (h2 : m ≤ 255) :
    get_color (layer_on (set_color m L)) = m
    ∧ get_color (layer_off (set_color m L)) = m
    ∧ (∀ L2 : Layer, |(layer_on L2).color| = |L2.color|
        ∧ |(layer_off L2).color| = |L2.color|)
    ∧ is_on (set_color m L) = is_on L
    ∧ is_off (set_color m L) = is_off L := by
  have habs : |m| = m := abs_of_nonneg (by omega)
  refine ⟨?_, ?_, fun L2 => ⟨?_, ?_⟩, ?_, ?_⟩ <;>
    simp only [get_color, layer_on, layer_off, set_color, is_on, is_off] <;>
    by_cases hc : L.color < 0 <;>
    simp [hc, habs, abs_abs, abs_neg] <;>
    omega

/-- Closed witness for C1 at magnitude 5 on the sample layer. -/
theorem spec_C1_witness :
    get_color (layer_on (set_color 5 sampleLayer)) = 5
    ∧ get_color (layer_off (set_color 5 sampleLayer)) = 5
    ∧ (|(layer_on sampleLayer).color| = |sampleLayer.color|
        ∧ |(layer_off sampleLayer).color| = |sampleLayer.color|)
    ∧ is_on (set_color 5 sampleLayer) = is_on sampleLayer
    ∧ is_off (set_color 5 sampleLayer) = is_off sampleLayer := by
  have H := spec_C1_color_sign_magnitude sampleLayer 5 (by decide) (by decide)
  exact ⟨H.1, H.2.1, H.2.2.1 sampleLayer, H.2.2.2.1, H.2.2.2.2⟩

/-- C5: transparency reader defensive opacity: an absent payload reads as 0;
a stored value lacking the "real transparency present" flag bit `0x2000000`
reads as 0 regardless of the low-order bits; the "by-block" bit pattern
`0x1000000` reads as 0; the reader is a total function (never raises). -/
theorem spec_C5_transparency_reader :
    transparency_get none = 0
    ∧ (∀ t : Nat, t &&& 0x2000000 = 0 → transparency_get (some t) = 0)
    ∧ transparency_get (some 0x1000000) = 0 := by
  refine ⟨rfl, ?_, by decide⟩
  intro t h
  simp [transparency_get, h]

/-- Closed witness for C5 at the flagless stored value 5. -/
theorem spec_C5_witness : transparency_get (some 5) = 0 :=
  spec_C5_transparency_reader.2.1 5 (by decide)

/-- C4 as stated is false: the transparency setter registers the reserved
application id in the document's app-id table before the range check, so a
failing call on a document lacking that entry mutates document state. At
`value = 2` on a document with an empty app-id table the call raises and the
resulting document differs from the original. -/
theorem spec_C4_counterexample :
    (transparency_set sampleLayerDoc 2).1.isSome = true
    ∧ (transparency_set sampleLayerDoc 2).2 ≠ sampleLayerDoc := by decide

/-- C4 (amended): the setter raises exactly when the value is outside
`[0, 1]`; on failure the layer's transparency payload is unchanged, though
the app-id table may additionally gain the reserved `AcCmTransparency`
entry; on success the entire previous payload is replaced by the newly
encoded value (no merge). -/
theorem spec_C4_transparency_setter_amended (doc : LayerDoc) (value : ℚ) :
    ((transparency_set doc value).1.isSome ↔ ¬(0 ≤ value ∧ value ≤ 1))
    ∧ ((transparency_set doc value).1.isSome →
        (transparency_set doc value).2.layer.xdata_transparency
          = doc.layer.xdata_transparency)
    ∧ ((transparency_set doc value).2.appids = doc.appids
        ∨ (transparency_set doc value).2.appids = doc.appids ++ [AcCmTransparency])
    ∧ ((transparency_set doc value).1 = none →
        (transparency_set doc value).2.layer.xdata_transparency
          = some (float2transparency value)) := by
  by_cases hm : AcCmTransparency ∈ doc.appids <;>
    by_cases hr : 0 ≤ value ∧ value ≤ 1 <;>
    simp [transparency_set, hm, hr]

/-- Closed witness for the amended C4 at `value = 2` on the sample document. -/
theorem spec_C4_amended_witness :
    ((transparency_set sampleLayerDoc 2).1.isSome ↔ ¬((0:ℚ) ≤ 2 ∧ (2:ℚ) ≤ 1))
    ∧ ((transparency_set sampleLayerDoc 2).1.isSome →
        (transparency_set sampleLayerDoc 2).2.layer.xdata_transparency
          = sampleLayerDoc.layer.xdata_transparency)
    ∧ ((transparency_set sampleLayerDoc 2).2.appids = sampleLayerDoc.appids
        ∨ (transparency_set sampleLayerDoc 2).2.appids
            = sampleLayerDoc.appids ++ [AcCmTransparency])
    ∧ ((transparency_set sampleLayerDoc 2).1 = none →
        (transparency_set sampleLayerDoc 2).2.layer.xdata_transparency
          = some (float2transparency 2)) :=
  spec_C4_transparency_setter_amended sampleLayerDoc 2

/-- The `layer` attribute after one rename-scan step: rewritten to the new
name exactly when the entity referenced the old name. -/
theorem renameEntityRef_layer (old new : String) (e : DbEntity) :
    (renameEntityRef old new e).layer
      = if referencesLayer old e then some new else e.layer := by
  by_cases h : referencesLayer old e <;>
    simp [renameEntityRef, h] <;> split_ifs <;> rfl

/-- Lookup after appending a fresh entry finds that entry. -/
theorem store_find_append_self (s : OverrideStore) (h : String)
    (d : OverrideAttributes) (hn : store_find s h = none) :
    store_find (s ++ [(h, d)]) h = some d := by
  have hfind : s.find? (fun p => p.1 == h) = none := by
    cases hfs : s.find? (fun p => p.1 == h) with
    | none => rfl
    | some p =>
      unfold store_find at hn
      rw [hfs] at hn
      simp at hn
  simp [store_find, List.find?_append, hfind, List.find?]

/-- Lookup of a different handle is unaffected by appending an entry. -/
theorem store_find_append_ne (s : OverrideStore) (h h2 : String)
    (d : OverrideAttributes) (hne : h2 ≠ h) :
    store_find (s ++ [(h, d)]) h2 = store_find s h2 := by
  have hb : (h == h2) = false := beq_eq_false_iff_ne.mpr (Ne.symm hne)
  simp only [store_find, List.find?_append]
  have hnil : List.find? (fun p => p.1 == h2) [(h, d)] = none := by
    simp [List.find?, hb]
  rw [hnil]
  cases s.find? (fun p => p.1 == h2) <;> simp

/-- Lookup of the updated handle after an in-place field mutation. -/
theorem store_find_update_self (s : OverrideStore) (h : String)
    (f : OverrideAttributes → OverrideAttributes) :
    store_find (store_update s h f) h = (store_find s h).map f := by
  induction s with
  | nil => rfl
  | cons p t ih =>
    by_cases hp : (p.1 == h) = true
    · simp [store_find, store_update, List.find?, hp]
    · rw [Bool.not_eq_true] at hp
      simp only [store_find, store_update, List.map_cons] at ih ⊢
      rw [if_neg (by simp [hp])]
      simp only [List.find?, hp]
      exact ih

/-- Lookup of a different handle is unaffected by an in-place mutation. -/
theorem store_find_update_ne (s : OverrideStore) (h h2 : String)
    (f : OverrideAttributes → OverrideAttributes) (hne : h2 ≠ h) :
    store_find (store_update s h f) h2 = store_find s h2 := by
  induction s with
  | nil => rfl
  | cons p t ih =>
    by_cases hp : (p.1 == h) = true
    · have hp2 : (p.1 == h2) = false := by
        rw [beq_eq_false_iff_ne]
        rw [beq_iff_eq] at hp
        rw [hp]
        exact Ne.symm hne
      simp only [store_find, store_update, List.map_cons, if_pos hp] at ih ⊢
      simp only [List.find?, hp2]
      exact ih
    · rw [Bool.not_eq_true] at hp
      simp only [store_find, store_update, List.map_cons] at ih ⊢
      rw [if_neg (by simp [hp])]
      by_cases hq : (p.1 == h2) = true
      · simp [List.find?, hq]
      · rw [Bool.not_eq_true] at hq
        simp only [List.find?, hq]
        exact ih

/-- C2: rename completeness with diagnostic degrade: after a successful
`rename(A, B)`, every entity whose `layer` attribute case-insensitively
equaled A has it rewritten to B and all other `layer` attributes are
untouched; zero entities reference A afterwards; and success never depends
on the entity database's contents (LAYER_FILTER / LAYER_INDEX entities are
only reported via log messages, never an error). -/
theorem spec_C2_rename_completeness (doc : RenameDoc) (B : String)
    (hok : (layer_rename doc B).1 = none)
    (hmem : doc.layerName ∈ doc.table) :
    List.Forall₂
      (fun e e2 =>
        (referencesLayer doc.layerName e = true → e2.layer = some B)
        ∧ (referencesLayer doc.layerName e = false → e2.layer = e.layer))
      doc.entitydb ((layer_rename doc B).2.entitydb)
    ∧ (∀ e2 ∈ (layer_rename doc B).2.entitydb, ∀ l : String,
        e2.layer = some l → lkey l ≠ lkey doc.layerName)
    ∧ (∀ db2 : List DbEntity,
        (layer_rename { doc with entitydb := db2 } B).1 = none) := by
  have hcore : is_valid_layer_name B = true
      ∧ ¬(lkey doc.layerName = ("0") ∨ lkey doc.layerName = ("defpoints"))
      ∧ has_entry doc.table B = false := by
    unfold layer_rename at hok
    split_ifs at hok with h1 h2 h3
    exact ⟨by simpa using h1, h2, by simpa using h3⟩
  have hdb : (layer_rename doc B).2.entitydb
      = doc.entitydb.map (renameEntityRef doc.layerName B) := by
    simp [layer_rename, hcore.1, hcore.2.1, hcore.2.2, rename_layer_references]
  have hBA : lkey B ≠ lkey doc.layerName := by
    intro heq
    have hhe : has_entry doc.table B = true := by
      unfold has_entry
      rw [List.any_eq_true]
      exact ⟨doc.layerName, hmem, by simp [heq]⟩
    rw [hcore.2.2] at hhe
    cases hhe
  refine ⟨?_, ?_, ?_⟩
  · rw [hdb, List.forall₂_map_right_iff, List.forall₂_same]
    intro e _he
    constructor
    · intro href
      rw [renameEntityRef_layer, if_pos href]
    · intro href
      rw [renameEntityRef_layer, if_neg (by simp [href])]
  · intro e2 he2 l hl
    rw [hdb] at he2
    obtain ⟨e, _he, rfl⟩ := List.mem_map.mp he2
    rw [renameEntityRef_layer] at hl
    by_cases href : referencesLayer doc.layerName e
    · rw [if_pos href] at hl
      have hBl : B = l := by injection hl
      subst hBl
      exact hBA
    · rw [if_neg href] at hl
      intro heq
      apply href
      unfold referencesLayer
      rw [hl]
      simp [heq]
  · intro db2
    simp [layer_rename, hcore.1, hcore.2.1, hcore.2.2]

/-- Closed witness for C2: renaming "WALLS" to "WALL" on the sample document
rewrites the case-different reference "walls" and succeeds in the presence
of a LAYER_FILTER entity; success also holds with a LAYER_INDEX entity. -/
theorem spec_C2_witness :
    List.Forall₂
      (fun e e2 =>
        (referencesLayer sampleRenameDoc.layerName e = true → e2.layer = some ("WALL"))
        ∧ (referencesLayer sampleRenameDoc.layerName e = false → e2.layer = e.layer))
      sampleRenameDoc.entitydb
      ((layer_rename sampleRenameDoc ("WALL")).2.entitydb)
    ∧ (layer_rename
        { sampleRenameDoc with
          entitydb := [{ handle := "A9", dxftype := "LAYER_INDEX",
                         layer := none, frozen_layers := [] }] }
        ("WALL")).1 = none := by
  have H := spec_C2_rename_completeness sampleRenameDoc ("WALL") (by decide) (by decide)
  exact ⟨H.1, H.2.2 _⟩

/-- C3: rename rejection atomicity: `rename` fails when the layer's current
name is "0" or "DEFPOINTS", when the new name carries a reserved illegal
character, or when the new name case-insensitively collides with a different
existing record; in every such case the returned document is unchanged (all
checks precede every mutation). -/
theorem spec_C3_rename_rejection (doc : RenameDoc) (name : String)
    (h : doc.layerName = ("0") ∨ doc.layerName = ("DEFPOINTS")
      ∨ (∃ c ∈ name.data, INVALID_NAME_CHARACTERS.data.contains c = true)
      ∨ (∃ t ∈ doc.table, lkey t = lkey name ∧ lkey t ≠ lkey doc.layerName)) :
    ((layer_rename doc name).1).isSome = true
    ∧ (layer_rename doc name).2 = doc := by
  unfold layer_rename
  split_ifs with h1 h2 h3
  · exact ⟨rfl, rfl⟩
  · exact ⟨rfl, rfl⟩
  · exact ⟨rfl, rfl⟩
  · exfalso
    rcases h with h0 | h0 | ⟨c, hc, hcc⟩ | ⟨t, ht, hteq, htne⟩
    · exact h2 (Or.inl (by rw [h0]; decide))
    · exact h2 (Or.inr (by rw [h0]; decide))
    · have hany : (name.data.any
          fun ch => INVALID_NAME_CHARACTERS.data.contains ch) = true :=
        List.any_eq_true.mpr ⟨c, hc, hcc⟩
      have hval : is_valid_layer_name name = false := by
        unfold is_valid_layer_name
        rw [hany]
        rfl
      exact h1 (by simp [hval])
    · apply h3
      unfold has_entry
      rw [List.any_eq_true]
      exact ⟨t, ht, by simp [hteq]⟩

/-- Closed witness for C3: renaming the protected layer "0" fails and leaves
the document unchanged. -/
theorem spec_C3_witness :
    ((layer_rename sampleProtectedDoc ("NEWNAME")).1).isSome = true
    ∧ (layer_rename sampleProtectedDoc ("NEWNAME")).2 = sampleProtectedDoc :=
  spec_C3_rename_rejection sampleProtectedDoc ("NEWNAME") (Or.inl rfl)

set_option maxHeartbeats 1600000 in
/-- C7: subclass marker version gating on export: the two subclass-marker
framing tags precede all attribute tags exactly when the target version is
newer than DXF12 and are omitted at DXF12; no attribute tag carries the
marker group code 100; and the emitted attribute group codes follow the
fixed declared order name, flags, color, true_color, linetype, plot,
lineweight, plotstyle_handle, material_handle, unknown1. -/
theorem spec_C7_subclass_marker_gating (v : DXFVersion) (L : Layer) :
    (DXFVersion.DXF12 < v →
      export_entity v L = subclass_markers ++ attrib_tags v L)
    ∧ (¬DXFVersion.DXF12 < v → export_entity v L = attrib_tags v L)
    ∧ (attrib_tags v L).all (fun t => t.code != 100) = true
    ∧ (attrib_tags v L).map Tag.code
        = declared_codes.filter (fun c => c ∈ (attrib_tags v L).map Tag.code) := by
  refine ⟨fun h => by simp [export_entity, h], fun h => by simp [export_entity, h], ?_, ?_⟩ <;>
  · rcases L with ⟨nm, fl, co, tc, lt, pl, lw, ph, mh, u1, xd⟩
    cases tc <;> cases pl <;> cases u1 <;> cases v <;> rfl

/-- Closed witness for C7: at DXF2000 the markers are emitted before the
attribute tags, at DXF12 they are omitted. -/
theorem spec_C7_witness :
    export_entity DXFVersion.DXF2000 sampleLayer
      = subclass_markers ++ attrib_tags DXFVersion.DXF2000 sampleLayer
    ∧ export_entity DXFVersion.DXF12 sampleLayer
        = attrib_tags DXFVersion.DXF12 sampleLayer :=
  ⟨(spec_C7_subclass_marker_gating DXFVersion.DXF2000 sampleLayer).1 (by decide),
   (spec_C7_subclass_marker_gating DXFVersion.DXF12 sampleLayer).2.1 (by decide)⟩

/-- C8: override default derivation: for a viewport-handle with no stored
override entry, `is_frozen` equals the live membership of the layer's name
in that viewport's frozen-layers list, and `get_color` equals the base
layer's current visibility-independent color magnitude. -/
theorem spec_C8_override_default_derivation (doc : VPDoc) (s : OverrideStore)
    (h : String) (hnone : store_find s h = none) :
    (vo_is_frozen doc s h).1 = is_layer_frozen_in_vp doc h
    ∧ (∀ vp : DbEntity, entitydb_get doc.entitydb h = some vp →
        ((vo_is_frozen doc s h).1 = true ↔ doc.layer.name ∈ vp.frozen_layers))
    ∧ (vo_get_color doc s h).1 = get_color doc.layer := by
  have h1 : (vo_is_frozen doc s h).1 = is_layer_frozen_in_vp doc h := by
    simp [vo_is_frozen, get_overrides, hnone, default_settings]
  refine ⟨h1, ?_, ?_⟩
  · intro vp hvp
    rw [h1]
    simp [is_layer_frozen_in_vp, hvp]
  · simp [vo_get_color, get_overrides, hnone, default_settings]

/-- Closed witness for C8 on the sample document with an empty store. -/
theorem spec_C8_witness :
    (vo_is_frozen sampleVPDoc [] ("B8")).1 = is_layer_frozen_in_vp sampleVPDoc ("B8")
    ∧ ((vo_is_frozen sampleVPDoc [] ("B8")).1 = true
        ↔ sampleVPDoc.layer.name ∈ sampleVP.frozen_layers)
    ∧ (vo_get_color sampleVPDoc [] ("B8")).1 = get_color sampleVPDoc.layer := by
  have H := spec_C8_override_default_derivation sampleVPDoc [] ("B8") rfl
  exact ⟨H.1, H.2.1 sampleVP (by decide), H.2.2⟩

/-- C9 as stated is false: a read operation on an unmaterialized handle does
not create an entry — `_get_overrides` computes the default on the fly
without inserting. After `get_color` on handle "B8" over an empty store the
store is still empty and `has_overrides` is still false. -/
theorem spec_C9_counterexample :
    (vo_get_color sampleVPDoc [] ("B8")).2 = ([] : OverrideStore)
    ∧ has_overrides (vo_get_color sampleVPDoc [] ("B8")).2 ("B8") = false :=
  ⟨rfl, rfl⟩

/-- C9 (amended): for an unmaterialized handle, the first write operation
(via `_acquire_overrides`, e.g. `freeze`) creates a materialized-default
entry seeded from the current base-layer settings plus the frozen flag read
live from the referenced viewport, leaving entries for all other handles
unchanged; read operations compute the same default on the fly without
creating an entry. -/
theorem spec_C9_materialization_amended (doc : VPDoc) (s : OverrideStore)
    (h : String) (hnone : store_find s h = none) :
    (acquire_overrides doc s h).2
      = s ++ [(h, default_settings doc (is_layer_frozen_in_vp doc h))]
    ∧ store_find (acquire_overrides doc s h).2 h
        = some (default_settings doc (is_layer_frozen_in_vp doc h))
    ∧ (∀ h2 : String, h2 ≠ h →
        store_find (acquire_overrides doc s h).2 h2 = store_find s h2)
    ∧ (vo_get_color doc s h).2 = s
    ∧ store_find (vo_freeze doc s h) h
        = some { default_settings doc (is_layer_frozen_in_vp doc h) with
                 frozen := true }
    ∧ (∀ h2 : String, h2 ≠ h →
        store_find (vo_freeze doc s h) h2 = store_find s h2) := by
  have hacq : (acquire_overrides doc s h).2
      = s ++ [(h, default_settings doc (is_layer_frozen_in_vp doc h))] := by
    simp [acquire_overrides, hnone]
  refine ⟨hacq, ?_, ?_, rfl, ?_, ?_⟩
  · rw [hacq]
    exact store_find_append_self s h _ hnone
  · intro h2 hne
    rw [hacq]
    exact store_find_append_ne s h h2 _ hne
  · unfold vo_freeze
    rw [store_find_update_self, hacq, store_find_append_self s h _ hnone]
    rfl
  · intro h2 hne
    unfold vo_freeze
    rw [store_find_update_ne _ _ _ _ hne, hacq, store_find_append_ne s h h2 _ hne]

/-- Closed witness for the amended C9 on the sample document. -/
theorem spec_C9_amended_witness :
    (acquire_overrides sampleVPDoc [] ("B8")).2
      = [] ++ [("B8", default_settings sampleVPDoc
                  (is_layer_frozen_in_vp sampleVPDoc ("B8")))]
    ∧ store_find (acquire_overrides sampleVPDoc [] ("B8")).2 ("B8")
        = some (default_settings sampleVPDoc
            (is_layer_frozen_in_vp sampleVPDoc ("B8")))
    ∧ store_find (acquire_overrides sampleVPDoc [] ("B8")).2 ("ZZ")
        = store_find [] ("ZZ")
    ∧ (vo_get_color sampleVPDoc [] ("B8")).2 = []
    ∧ store_find (vo_freeze sampleVPDoc [] ("B8")) ("B8")
        = some { default_settings sampleVPDoc
                   (is_layer_frozen_in_vp sampleVPDoc ("B8")) with
                 frozen := true }
    ∧ store_find (vo_freeze sampleVPDoc [] ("B8")) ("ZZ")
        = store_find [] ("ZZ") := by
  have H := spec_C9_materialization_amended sampleVPDoc [] ("B8") rfl
  exact ⟨H.1, H.2.1, H.2.2.1 ("ZZ") (by decide), H.2.2.2.1,
    H.2.2.2.2.1, H.2.2.2.2.2 ("ZZ") (by decide)⟩

/-- C10: dangling viewport handle degrades to not-frozen:
`is_layer_frozen_in_vp` returns false without raising when the handle does
not resolve in the entity database, and `is_frozen` on an unmaterialized
handle referencing a nonexistent viewport returns false. -/
theorem spec_C10_dangling_handle (doc : VPDoc) (s : OverrideStore) (h : String)
    (hmiss : entitydb_get doc.entitydb h = none) (hnone : store_find s h = none) :
    is_layer_frozen_in_vp doc h = false ∧ (vo_is_frozen doc s h).1 = false := by
  have h1 : is_layer_frozen_in_vp doc h = false := by
    simp [is_layer_frozen_in_vp, hmiss]
  exact ⟨h1, by simp [vo_is_frozen, get_overrides, hnone, default_settings, h1]⟩

/-- Closed witness for C10 at the unresolvable handle "ZZ". -/
theorem spec_C10_witness :
    is_layer_frozen_in_vp sampleVPDoc ("ZZ") = false
    ∧ (vo_is_frozen sampleVPDoc [] ("ZZ")).1 = false :=
  spec_C10_dangling_handle sampleVPDoc [] ("ZZ") (by decide) rfl

end EzdxfLayer
